import Mathlib

/-!
Verification development for the fraud-middleware decision-and-detection
engine.  The Python source is shallowly embedded: floats become rationals,
wall-clock instants (`time.time()` values) become rationals, dictionaries
keyed by strings become total functions with explicit defaults mirroring
`defaultdict` semantics, and optional values become `Option`.  Every
definition follows a function of the repository; the file, line numbers and
any modelling conventions are stated in the doc comment of each definition.
-/

set_option linter.unusedVariables false

namespace FraudMW

/-! ## Rate limiter (api/utils/rate_limiter.py) -/

/-- Rate limit tiers (`RateLimitTier`, rate_limiter.py lines 20-26). -/
inductive RateLimitTier where
  | free
  | basic
  | premium
  | internal
  | unlimited
deriving DecidableEq, Repr

/-- Rate limit configuration (`RateLimitConfig`, rate_limiter.py lines 29-34).
`requestsPerMinute` and `burstCapacity` are Python ints, `blockDurationSeconds`
defaults to 300. -/
structure RateLimitConfig where
  requestsPerMinute : ℕ
  burstCapacity : ℕ
  blockDurationSeconds : ℕ
deriving DecidableEq, Repr

/-- Tier configurations from `RateLimiter.__init__` (rate_limiter.py
lines 108-134). -/
def tierConfigs : RateLimitTier → RateLimitConfig
  | .free => ⟨20, 10, 300⟩
  | .basic => ⟨100, 30, 300⟩
  | .premium => ⟨500, 100, 300⟩
  | .internal => ⟨2000, 500, 600⟩
  | .unlimited => ⟨999999, 999999, 0⟩

/-- Token bucket state (`TokenBucket.__init__`, rate_limiter.py lines 44-55).
`tokens` is a Python float (modelled as ℚ); `lastRefill` is the wall-clock
instant of the last refill.  A fresh bucket has `tokens = capacity` and
`lastRefill` equal to the creation instant. -/
structure TokenBucket where
  capacity : ℚ
  refillRate : ℚ
  tokens : ℚ
  lastRefill : ℚ
deriving DecidableEq, Repr

namespace TokenBucket

/-- `TokenBucket.consume` (rate_limiter.py lines 57-81).  Refills
`tokens = min(capacity, tokens + elapsed * refill_rate)`, sets
`last_refill = now`, then consumes `cost` tokens iff `tokens >= cost`.
The `now` that Python obtains from `time.time()` inside the method is
passed explicitly. -/
def consume (b : TokenBucket) (now : ℚ) (cost : ℕ) : Bool × TokenBucket :=
  let refilled := min b.capacity (b.tokens + (now - b.lastRefill) * b.refillRate)
  if (cost : ℚ) ≤ refilled then
    (true, { b with tokens := refilled - cost, lastRefill := now })
  else
    (false, { b with tokens := refilled, lastRefill := now })

end TokenBucket

/-- State of `RateLimiter` (rate_limiter.py lines 104-148).
`buckets` models `self._buckets` (`none` = key absent); `tiers` models
`self._source_tiers`, a `defaultdict` whose default is `BASIC`, with
`none` meaning the source was never assigned a tier; `blockedUntil` models
`self._blocked_until`; `violations` models `self._violations`
(a `defaultdict(list)` of violation instants). -/
structure RateLimiter where
  buckets : String → Option TokenBucket
  tiers : String → Option RateLimitTier
  blockedUntil : String → Option ℚ
  violations : String → List ℚ

namespace RateLimiter

/-- Fresh limiter (`RateLimiter.__init__`, rate_limiter.py lines 136-148). -/
def init : RateLimiter :=
  { buckets := fun _ => none
    tiers := fun _ => none
    blockedUntil := fun _ => none
    violations := fun _ => [] }

/-- Tier lookup with the `defaultdict` default `RateLimitTier.BASIC`
(rate_limiter.py lines 140-142). -/
def tierOf (st : RateLimiter) (source : String) : RateLimitTier :=
  (st.tiers source).getD .basic

/-- The bucket lookup-or-create step of `RateLimiter.check_rate_limit`
(rate_limiter.py lines 199-210): an existing bucket is reused, otherwise
a fresh bucket is created from the source's tier configuration with
`capacity = burst_capacity`, `refill_rate = requests_per_minute / 60`,
a full token count and the current instant as `last_refill`. -/
def bucketFor (st : RateLimiter) (source : String) (now : ℚ) : TokenBucket :=
  match st.buckets source with
  | some b => b
  | none =>
      let config := tierConfigs (st.tierOf source)
      { capacity := config.burstCapacity
        refillRate := (config.requestsPerMinute : ℚ) / 60
        tokens := config.burstCapacity
        lastRefill := now }

/-- The body of `RateLimiter.check_rate_limit` after the temporary-block
check (rate_limiter.py lines 199-248): look up or create the source's
bucket, try to consume, and on failure record a violation, prune the
violation list to the trailing 300 seconds and set a temporary block when
3 or more violations remain. -/
def checkCore (st : RateLimiter) (source : String) (now : ℚ) (cost : ℕ) :
    Bool × RateLimiter :=
  let config := tierConfigs (st.tierOf source)
  let bucket := bucketFor st source now
  let res := bucket.consume now cost
  let buckets' := fun s => if s = source then some res.2 else st.buckets s
  if res.1 then
    (true, { st with buckets := buckets' })
  else
    let pruned := (st.violations source ++ [now]).filter (fun t => now - t < 300)
    let violations' := fun s => if s = source then pruned else st.violations s
    if 3 ≤ pruned.length then
      (false,
        { st with
          buckets := buckets'
          violations := violations'
          blockedUntil := fun s =>
            if s = source then some (now + config.blockDurationSeconds)
            else st.blockedUntil s })
    else
      (false, { st with buckets := buckets', violations := violations' })

/-- `RateLimiter.check_rate_limit` (rate_limiter.py lines 164-248).
If the source is temporarily blocked and the block has not expired the
call is rejected with the state untouched (in particular the bucket is
not consulted); an expired block is removed and the call proceeds. -/
def checkRateLimit (st : RateLimiter) (source : String) (now : ℚ) (cost : ℕ) :
    Bool × RateLimiter :=
  match st.blockedUntil source with
  | some unblockTime =>
      if now < unblockTime then
        (false, st)
      else
        let st' :=
          { st with
            blockedUntil := fun s => if s = source then none else st.blockedUntil s }
        checkCore st' source now cost
  | none => checkCore st source now cost

/-- `RateLimiter.unblock_source` (rate_limiter.py lines 271-290).  Only a
source present in `_blocked_until` is touched: its block, violation list
and bucket are removed.  For any other source the call is a no-op
returning `false`. -/
def unblockSource (st : RateLimiter) (source : String) : Bool × RateLimiter :=
  match st.blockedUntil source with
  | some _ =>
      (true,
        { st with
          blockedUntil := fun s => if s = source then none else st.blockedUntil s
          violations := fun s => if s = source then [] else st.violations s
          buckets := fun s => if s = source then none else st.buckets s })
  | none => (false, st)

/-- `RateLimiter.set_source_tier` (rate_limiter.py lines 150-162). -/
def setSourceTier (st : RateLimiter) (source : String) (tier : RateLimitTier) :
    RateLimiter :=
  { st with
    tiers := fun s => if s = source then some tier else st.tiers s
    buckets := fun s => if s = source then none else st.buckets s }

/-- One observed call to `check_rate_limit`: a source, the wall-clock
instant of the call, and the token cost (a non-negative int). -/
structure Op where
  source : String
  now : ℚ
  cost : ℕ

/-- Run a sequence of `check_rate_limit` calls from a starting state. -/
def runOps (st : RateLimiter) (ops : List Op) : RateLimiter :=
  ops.foldl (fun s op => (checkRateLimit s op.source op.now op.cost).2) st

/-- Wall-clock monotonicity of a call sequence: starting from instant
`t0`, each successive `time.time()` sample is at least the previous one. -/
def TimesMono (t0 : ℚ) (ops : List Op) : Prop :=
  List.Chain (fun a b => a ≤ b) t0 (ops.map Op.now)

/-- The per-bucket invariant of the spec together with the bookkeeping
facts needed to preserve it: token count within `[0, capacity]`,
non-negative capacity and refill rate, and a last-refill instant no later
than the current clock. -/
def BucketInv (clock : ℚ) (b : TokenBucket) : Prop :=
  0 ≤ b.tokens ∧ b.tokens ≤ b.capacity ∧ 0 ≤ b.capacity ∧
    0 ≤ b.refillRate ∧ b.lastRefill ≤ clock

/-- All live buckets of a limiter state satisfy `BucketInv`. -/
def StateInv (clock : ℚ) (st : RateLimiter) : Prop :=
  ∀ s b, st.buckets s = some b → BucketInv clock b

end RateLimiter

/-! ## Rules engine (api/models/rules.py) -/

/-- `RuleAction` (rules.py lines 22-27). -/
inductive RuleAction where
  | allow
  | review
  | stepUp
  | block
deriving DecidableEq, Repr

/-- `RuleResult` (rules.py lines 30-40): an action and the list of rule
ids that fired. -/
structure RuleResult where
  action : RuleAction
  reasons : List String
deriving DecidableEq, Repr

/-- A transaction timestamp as `evaluate` uses it after parsing
(rules.py lines 143-146): `seconds` is the instant on the timedelta
axis (epoch seconds, used for the 1h/24h velocity cutoffs) and `hour`
is `datetime.hour` of the same instant (used for the night window).
The ISO-8601 parsing itself, with its fallback to `datetime.now()`, is
outside the model: the claims quantify over the parsed value. -/
structure TxnTime where
  seconds : ℚ
  hour : ℕ
deriving DecidableEq, Repr

/-- The fields `RulesEngine.evaluate` reads from the transaction dict
(rules.py lines 134-140).  `transaction.get` yields `None` for a missing
key, hence the `Option` types; `amount` defaults to 0. -/
structure Transaction where
  userId : Option String
  deviceId : Option String
  amount : ℚ
  time : TxnTime
  ipAddress : Option String
  merchantId : Option String
deriving DecidableEq, Repr

/-- Python `str(x)` for an optional string, as used by the f-string
velocity keys `"user:{user_id}"` etc.: `None` prints as `"None"`. -/
def pyStr : Option String → String
  | none => "None"
  | some s => s

/-- Python truthiness of an optional string: `None` and `""` are falsy. -/
def pyTruthy : Option String → Bool
  | none => false
  | some s => s ≠ ""

/-- The rules configuration fields used by `evaluate` with their default
values from `RulesEngine._load_config` (rules.py lines 86-113). -/
structure RulesConfig where
  userHourly : ℕ
  userDaily : ℕ
  deviceHourly : ℕ
  highValueAmount : ℚ
  highValueDaily : ℕ
  nightStartHour : ℕ
  nightEndHour : ℕ
  firstTxnStepUp : ℚ
  reviewLargeAmount : ℚ
  reviewAmountMultiplier : ℚ
deriving DecidableEq, Repr

/-- The default configuration returned when `config/rules_v1.yaml` is
absent (rules.py lines 86-113). -/
def defaultRulesConfig : RulesConfig :=
  { userHourly := 10
    userDaily := 50
    deviceHourly := 5
    highValueAmount := 1000
    highValueDaily := 3
    nightStartHour := 3
    nightEndHour := 5
    firstTxnStepUp := 500
    reviewLargeAmount := 10000
    reviewAmountMultiplier := 100 }

/-- Mutable state of `RulesEngine` (rules.py lines 60-75): the four deny
lists, the velocity tracker (`defaultdict(list)` keyed by strings such as
`"user:u1"`), the per-user transaction count (`defaultdict(int)`) and the
per-user amount history (`defaultdict(list)`). -/
structure RulesState where
  deniedUsers : List String
  deniedDevices : List String
  deniedIps : List String
  deniedMerchants : List String
  velocityTracker : String → List ℚ
  userTransactionCount : String → ℕ
  userAmounts : String → List ℚ

namespace RulesEngine

/-- `RulesEngine._check_denylists` (rules.py lines 185-206).  Each id is
checked with Python truthiness first, so `None` and `""` never match. -/
def checkDenylists (st : RulesState) (userId deviceId ipAddress merchantId :
    Option String) : List String :=
  (if pyTruthy userId ∧ pyStr userId ∈ st.deniedUsers then ["denied_user"] else []) ++
  (if pyTruthy deviceId ∧ pyStr deviceId ∈ st.deniedDevices then ["denied_device"] else []) ++
  (if pyTruthy ipAddress ∧ pyStr ipAddress ∈ st.deniedIps then ["denied_ip"] else []) ++
  (if pyTruthy merchantId ∧ pyStr merchantId ∈ st.deniedMerchants then ["denied_merchant"] else [])

/-- `RulesEngine._count_recent_transactions` (rules.py lines 257-280):
keep only the timestamps strictly newer than `current_time -
timedelta(hours=hours)`, store the pruned list back into the tracker, and
return its length together with the updated state.  A missing key returns
0 and leaves the tracker unchanged (line 269-270); since a missing key is
the empty list in this model, the two branches coincide. -/
def countRecentTransactions (st : RulesState) (key : String)
    (currentTime : ℚ) (hours : ℕ) : ℕ × RulesState :=
  let cutoff := currentTime - hours * 3600
  let recent := (st.velocityTracker key).filter (fun t => cutoff < t)
  (recent.length,
    { st with velocityTracker := fun k => if k = key then recent else st.velocityTracker k })

/-- `RulesEngine._check_velocity` (rules.py lines 208-255).  Returns the
velocity action and reasons (empty reasons when no cap fired) and the
state as mutated by the pruning inside `_count_recent_transactions`. -/
def checkVelocity (cfg : RulesConfig) (st : RulesState)
    (userId deviceId : Option String) (amount : ℚ) (txnTime : ℚ) :
    RuleAction × List String × RulesState :=
  let userKey := "user:" ++ pyStr userId
  let r1 := countRecentTransactions st userKey txnTime 1
  let c1 := (if cfg.userHourly ≤ r1.1 then (RuleAction.block, ["velocity_user_1h"])
             else (RuleAction.allow, []))
  let r2 := countRecentTransactions r1.2 userKey txnTime 24
  let c2 := (if cfg.userDaily ≤ r2.1 then (RuleAction.block, c1.2 ++ ["velocity_user_1d"])
             else (c1.1, c1.2))
  let deviceKey := "device:" ++ pyStr deviceId
  let r3 := countRecentTransactions r2.2 deviceKey txnTime 1
  let c3 := (if cfg.deviceHourly ≤ r3.1 then (RuleAction.block, c2.2 ++ ["velocity_device_1h"])
             else (c2.1, c2.2))
  if cfg.highValueAmount < amount then
    let highKey := "high_value:" ++ pyStr userId
    let r4 := countRecentTransactions r3.2 highKey txnTime 24
    if cfg.highValueDaily ≤ r4.1 then
      (RuleAction.review, c3.2 ++ ["velocity_high_value"], r4.2)
    else
      (c3.1, c3.2, r4.2)
  else
    (c3.1, c3.2, r3.2)

/-- `RulesEngine._check_time_anomaly` (rules.py lines 282-299): flag
`"time_night_window"` when `night_start <= hour < night_end`. -/
def checkTimeAnomaly (cfg : RulesConfig) (hour : ℕ) : Option String :=
  if cfg.nightStartHour ≤ hour ∧ hour < cfg.nightEndHour then
    some "time_night_window"
  else
    none

/-- `RulesEngine._check_amount_rules` (rules.py lines 301-336). -/
def checkAmountRules (cfg : RulesConfig) (st : RulesState)
    (userId : Option String) (amount : ℚ) : RuleAction × List String :=
  let txnCount := st.userTransactionCount (pyStr userId)
  let s1 := (if txnCount = 0 ∧ cfg.firstTxnStepUp < amount then
               (RuleAction.stepUp, ["amount_first_txn_high"])
             else (RuleAction.allow, []))
  let s2 := (if cfg.reviewLargeAmount < amount then
               (RuleAction.review, s1.2 ++ ["amount_large"])
             else (s1.1, s1.2))
  let amounts := st.userAmounts (pyStr userId)
  if amounts.length ≠ 0 ∧ amounts.sum / amounts.length * cfg.reviewAmountMultiplier < amount then
    (RuleAction.review, s2.2 ++ ["amount_unusual"])
  else
    (s2.1, s2.2)

/-- `RulesEngine._track_transaction` (rules.py lines 338-363): append the
 timestamp to the user and device velocity keys (and the high-value key
when the amount exceeds the high-value floor), bump the user transaction
count, append the amount and keep only the last 30 amounts. -/
def trackTransaction (cfg : RulesConfig) (st : RulesState)
    (userId deviceId : Option String) (amount : ℚ) (txnTime : ℚ) : RulesState :=
  let userKey := "user:" ++ pyStr userId
  let deviceKey := "device:" ++ pyStr deviceId
  let highKey := "high_value:" ++ pyStr userId
  let tr1 := fun k => if k = userKey then st.velocityTracker k ++ [txnTime]
                      else st.velocityTracker k
  let tr2 := fun k => if k = deviceKey then tr1 k ++ [txnTime] else tr1 k
  let tr3 := fun k =>
    if cfg.highValueAmount < amount ∧ k = highKey then tr2 k ++ [txnTime] else tr2 k
  let uid := pyStr userId
  let newAmounts := st.userAmounts uid ++ [amount]
  let kept := if 30 < newAmounts.length
              then newAmounts.drop (newAmounts.length - 30) else newAmounts
  { st with
    velocityTracker := tr3
    userTransactionCount := fun u =>
      if u = uid then st.userTransactionCount u + 1 else st.userTransactionCount u
    userAmounts := fun u => if u = uid then kept else st.userAmounts u }

/-- `RulesEngine.evaluate` (rules.py lines 115-183).  Deny lists are
checked first and return an immediate Block with the deny reasons and no
state change; otherwise velocity, time and amount checks combine with the
upgrade-only tie-break of the source, the transaction is tracked, and the
accumulated action and reasons are returned. -/
def evaluate (cfg : RulesConfig) (st : RulesState) (txn : Transaction) :
    RuleResult × RulesState :=
  let denyReasons := checkDenylists st txn.userId txn.deviceId txn.ipAddress txn.merchantId
  if denyReasons ≠ [] then
    (⟨RuleAction.block, denyReasons⟩, st)
  else
    let v := checkVelocity cfg st txn.userId txn.deviceId txn.amount txn.time.seconds
    if v.1 = RuleAction.block then
      (⟨RuleAction.block, v.2.1⟩, v.2.2)
    else
      let action1 := if v.2.1 ≠ [] ∧ v.1 = RuleAction.review
                     then RuleAction.review else RuleAction.allow
      let timeFlag := checkTimeAnomaly cfg txn.time.hour
      let reasons2 := v.2.1 ++ (match timeFlag with | some f => [f] | none => [])
      let action2 := match timeFlag with
        | some _ => if action1 = RuleAction.allow then RuleAction.review else action1
        | none => action1
      let a := checkAmountRules cfg (v.2.2) txn.userId txn.amount
      let reasons3 := reasons2 ++ a.2
      let action3 :=
        if a.2 ≠ [] then
          if a.1 = RuleAction.stepUp ∧ action2 = RuleAction.allow then RuleAction.stepUp
          else if a.1 = RuleAction.review ∧
              (action2 = RuleAction.allow ∨ action2 = RuleAction.stepUp) then
            RuleAction.review
          else action2
        else action2
      let st' := trackTransaction cfg (v.2.2) txn.userId txn.deviceId txn.amount
        txn.time.seconds
      (⟨action3, reasons3⟩, st')

end RulesEngine

/-! ## Policy engine (api/models/policy.py) -/

/-- The four decision thresholds of `PolicyEngine` with their default
values from `_load_config` (policy.py lines 39-44 and 60-72).  Scores are
Python floats, modelled as ℚ. -/
structure Thresholds where
  allow : ℚ
  monitor : ℚ
  stepup : ℚ
  review : ℚ
deriving DecidableEq, Repr

/-- Default thresholds (policy.py lines 39-44). -/
def defaultThresholds : Thresholds :=
  { allow := 35/100, monitor := 55/100, stepup := 75/100, review := 90/100 }

/-- The fields of the rules dict handed to `PolicyEngine.decide`
(decision.py lines 232-236): the fired rule flags and the `blocked`
bit. -/
structure RulesDict where
  blocked : Bool
  flags : List String
deriving DecidableEq, Repr

/-- The fields of the ML result that `PolicyEngine.decide` reads: the
calibrated score (`ml_result.get("score", 0.0)`). -/
structure MLResult where
  score : ℚ
deriving DecidableEq, Repr

/-- The decision code and score computed by `PolicyEngine.decide`. -/
structure Decision where
  decisionCode : ℕ
  score : ℚ
deriving DecidableEq, Repr

namespace PolicyEngine

/-- The threshold cascade of `PolicyEngine.decide` (policy.py lines
100-114): the first threshold the score is strictly below determines the
code, else Block. -/
def decisionCode (th : Thresholds) (mlScore : ℚ) : ℕ :=
  if mlScore < th.allow then 0
  else if mlScore < th.monitor then 1
  else if mlScore < th.stepup then 2
  else if mlScore < th.review then 3
  else 4

/-- `PolicyEngine.decide` (policy.py lines 74-124) restricted to the
decision code and score.  The human-readable `reasons` strings built by
`_build_reasons` (pure string formatting of the same inputs) are not
modelled; the only claim about reasons concerns the route-level blocked
path, which bypasses `_build_reasons`. -/
def decide (th : Thresholds) (rules : RulesDict) (ml : MLResult) : Decision :=
  if rules.blocked then
    { decisionCode := 4, score := 1 }
  else
    { decisionCode := decisionCode th ml.score, score := ml.score }

/-- `PolicyEngine.update_threshold` (policy.py lines 195-204): an update
is applied only when the name is one of the four keys and the value lies
in `[0, 1]`. -/
def updateThreshold (th : Thresholds) (name : String) (value : ℚ) : Thresholds :=
  if 0 ≤ value ∧ value ≤ 1 then
    if name = "allow" then { th with allow := value }
    else if name = "monitor" then { th with monitor := value }
    else if name = "stepup" then { th with stepup := value }
    else if name = "review" then { th with review := value }
    else th
  else th

end PolicyEngine

/-! ## Decision route (api/routes/decision.py) -/

/-- The response fields of `make_decision` relevant to the pipeline
claims (decision.py lines 217-225 and 255-264); the latency, the
top-features list and the backward-compatibility aliases are omitted. -/
structure DecisionResponse where
  decisionCode : ℕ
  score : ℚ
  reasons : List String
  ruleFlags : List String
  mlScore : Option ℚ
deriving DecidableEq, Repr

/-- The rule-stage branch of `make_decision` (decision.py lines 211-237)
without the optional session stage: given the rule verdict and the value
the ML engine would return, produce the response together with a flag
recording whether `ml_engine.predict` was invoked.  The flag is `false`
exactly on the early-return Block branch (lines 215-225), mirroring the
control flow in which stage 2 runs only below that branch.
`buildReasons` abstracts `PolicyEngine._build_reasons` (pure string
formatting of the rule flags and the model output); the Block branch
returns `rules_result.reasons` directly and never calls it. -/
def makeDecision (buildReasons : RulesDict → MLResult → List String)
    (th : Thresholds) (rulesResult : RuleResult) (mlOracle : MLResult) :
    DecisionResponse × Bool :=
  if rulesResult.action = RuleAction.block then
    ({ decisionCode := 4
       score := 1
       reasons := rulesResult.reasons
       ruleFlags := rulesResult.reasons
       mlScore := none }, false)
  else
    let ml := mlOracle
    let rulesDict : RulesDict := { blocked := false, flags := rulesResult.reasons }
    let d := PolicyEngine.decide th rulesDict ml
    ({ decisionCode := d.decisionCode
       score := d.score
       reasons := buildReasons rulesDict ml
       ruleFlags := rulesResult.reasons
       mlScore := some ml.score }, true)

/-! ## ML engine stub path (api/models/ml_engine.py) -/

/-- Python `round(x, 3)` on the score (ml_engine.py line 208), modelled
as rounding to the nearest thousandth.  Python uses banker's rounding at
exact half-thousandths; the two conventions agree everywhere else, and no
claim depends on a tie. -/
def round3 (q : ℚ) : ℚ := round (q * 1000) / 1000

/-- The raw stub score `random.uniform(0.1, 0.5)` (ml_engine.py line
187) as a function of the unit PRNG draw `u` consumed by the call:
`uniform(a, b) = a + (b - a) * u` with `u` drawn from `[0, 1]`. -/
def mlStubRawScore (u : ℚ) : ℚ := 1/10 + (5/10 - 1/10) * u

/-- The score field returned by `MLEngine.predict` on the stub path
(ml_engine.py lines 185-208) when no calibrator is loaded:
`calibrate_score` is the identity (lines 253-254) and the result is
rounded to 3 decimals.  The transaction argument is taken for fidelity to
the signature: the stub score reads only the PRNG draw, never the
transaction. -/
def predictStubScore (txn : Transaction) (u : ℚ) : ℚ :=
  round3 (mlStubRawScore u)

/-! ## Institute security engine (api/models/institute_security.py)

Threat levels are the `ThreatLevel` integer values (INFO 0, LOW 1,
MEDIUM 2, HIGH 3, CRITICAL 4); threat types are the `ThreatType` string
values.  `SecurityEvent` is modelled by the fields the detection logic
reads and the claims mention; `event_id` (an md5 of the wall clock),
`timestamp` and the human-readable `description`/`metadata` are logging
payload and are omitted. -/

/-- `SecurityEvent` (institute_security.py lines 44-58), detection-relevant
fields. -/
structure SecurityEvent where
  threatType : String
  threatLevel : ℕ
  sourceIdentifier : String
  requiresReview : Bool
deriving DecidableEq, Repr

/-- One record of `_api_request_history` (institute_security.py lines
135-141). -/
structure ApiRecord where
  timestamp : ℚ
  endpoint : String
  success : Bool
  latency : ℚ
deriving DecidableEq, Repr

/-- Per-(source, data type) access statistics kept by
`monitor_data_access` (institute_security.py lines 298-304). -/
structure DataStats where
  total : ℚ
  count : ℕ
  avg : ℚ
deriving DecidableEq, Repr

/-- The configuration dict of `InstituteSecurityEngine.__init__`
(institute_security.py lines 73-97). -/
structure InstituteConfig where
  apiRequestsPerMinuteWarning : ℕ
  apiRequestsPerMinuteCritical : ℕ
  apiErrorRateWarning : ℚ
  apiErrorRateCritical : ℚ
  failedAuthAttemptsWarning : ℕ
  failedAuthAttemptsCritical : ℕ
  failedAuthWindowMinutes : ℕ
  unusualDataVolumeMultiplier : ℚ
  rapidRequestsWindowSeconds : ℕ
  rapidRequestsThreshold : ℕ
  offHoursAccessStart : ℕ
  offHoursAccessEnd : ℕ
deriving DecidableEq, Repr

/-- The constant configuration values (institute_security.py lines
73-97). -/
def instCfg : InstituteConfig :=
  { apiRequestsPerMinuteWarning := 100
    apiRequestsPerMinuteCritical := 500
    apiErrorRateWarning := 1/10
    apiErrorRateCritical := 1/4
    failedAuthAttemptsWarning := 5
    failedAuthAttemptsCritical := 10
    failedAuthWindowMinutes := 15
    unusualDataVolumeMultiplier := 3
    rapidRequestsWindowSeconds := 60
    rapidRequestsThreshold := 50
    offHoursAccessStart := 22
    offHoursAccessEnd := 6 }

/-- In-memory state of `InstituteSecurityEngine` (institute_security.py
lines 99-108).  The nested `_user_access_patterns` defaultdict is split
into its three components (endpoint counters, hour-of-day histogram,
per-data-type stats); `_blocked_sources` is a set of source ids. -/
structure InstituteState where
  apiRequestHistory : String → List ApiRecord
  failedAuthTracking : String → List ℚ
  endpointCounts : String → String → ℕ
  hourlyDistribution : String → ℕ → ℕ
  dataStats : String → String → Option DataStats
  securityEvents : List SecurityEvent
  blockedSources : List String

namespace InstituteSecurityEngine

/-- Fresh engine state (institute_security.py lines 99-108). -/
def init : InstituteState :=
  { apiRequestHistory := fun _ => []
    failedAuthTracking := fun _ => []
    endpointCounts := fun _ _ => 0
    hourlyDistribution := fun _ _ => 0
    dataStats := fun _ _ => none
    securityEvents := []
    blockedSources := [] }

/-- Append to a `deque(maxlen=n)`: the oldest entries are dropped once
the length exceeds `n`. -/
def appendMax {α : Type} (maxlen : ℕ) (l : List α) (x : α) : List α :=
  let l' := l ++ [x]
  if maxlen < l'.length then l'.drop (l'.length - maxlen) else l'

/-- Python set `add` on the blocked-sources set, modelled on a
duplicate-free list. -/
def addBlocked (blocked : List String) (source : String) : List String :=
  if source ∈ blocked then blocked else source :: blocked

/-- Substring test on character lists, modelling Python's
`needle in haystack` for strings. -/
def charsContain (needle : List Char) : List Char → Bool
  | [] => needle.isEmpty
  | c :: rest => needle.isPrefixOf (c :: rest) || charsContain needle rest

/-- Python `sensitive in endpoint` substring test. -/
def strContains (haystack needle : String) : Bool :=
  charsContain needle.toList haystack.toList

/-- `max(events, key=lambda e: e.threat_level)`: the first event with the
maximal threat level (Python `max` keeps the earliest among ties).
Returns `none` on the empty list. -/
def firstMaxByLevel (events : List SecurityEvent) : Option SecurityEvent :=
  events.foldl
    (fun acc e =>
      match acc with
      | none => some e
      | some a => if a.threatLevel < e.threatLevel then some e else some a)
    none

/-- `_check_request_rate` (institute_security.py lines 433-485): count
requests in the trailing 60-second window and in the rapid-burst window;
Critical at the critical floor, High at the warning floor, Medium at the
rapid-burst floor.  `requires_review` is set for levels ≥ HIGH. -/
def checkRequestRate (st : InstituteState) (source : String) (now : ℚ) :
    Option SecurityEvent :=
  let requests := st.apiRequestHistory source
  let recent := (requests.filter (fun r => now - 60 < r.timestamp)).length
  let rapid :=
    (requests.filter (fun r =>
      now - (instCfg.rapidRequestsWindowSeconds : ℚ) < r.timestamp)).length
  if instCfg.apiRequestsPerMinuteCritical ≤ recent then
    some { threatType := "api_abuse", threatLevel := 4,
           sourceIdentifier := source, requiresReview := true }
  else if instCfg.apiRequestsPerMinuteWarning ≤ recent then
    some { threatType := "api_abuse", threatLevel := 3,
           sourceIdentifier := source, requiresReview := true }
  else if instCfg.rapidRequestsThreshold ≤ rapid then
    some { threatType := "api_abuse", threatLevel := 2,
           sourceIdentifier := source, requiresReview := false }
  else
    none

/-- `_check_error_rate` (institute_security.py lines 487-521): with at
least 10 recorded requests, the error fraction over the last 50 requests
maps to High at the critical floor and Medium at the warning floor.
`requires_review` is set for levels ≥ MEDIUM. -/
def checkErrorRate (st : InstituteState) (source : String) :
    Option SecurityEvent :=
  let requests := st.apiRequestHistory source
  if requests.length < 10 then none
  else
    let recent := if 50 < requests.length
                  then requests.drop (requests.length - 50) else requests
    let errorCount := (recent.filter (fun r => !r.success)).length
    let errorFrac : ℚ := errorCount / recent.length
    if instCfg.apiErrorRateCritical ≤ errorFrac then
      some { threatType := "api_abuse", threatLevel := 3,
             sourceIdentifier := source, requiresReview := true }
    else if instCfg.apiErrorRateWarning ≤ errorFrac then
      some { threatType := "api_abuse", threatLevel := 2,
             sourceIdentifier := source, requiresReview := true }
    else
      none

/-- `_check_off_hours_access` (institute_security.py lines 523-585).  The
hour is in off-hours when `hour >= 22 or hour < 6` (or the forced test
flag is set); a forced call always yields a High event; otherwise the
source needs at least 20 recorded requests and an historical off-hours
fraction below 10% for a Medium event.  The histogram keys are the hour
values 0-23, so `sum(pattern.values())` is the sum over `range 24`. -/
def checkOffHoursAccess (st : InstituteState) (source : String) (hour : ℕ)
    (endpoint : String) (forceOffHours : Bool) : Option SecurityEvent :=
  let start := instCfg.offHoursAccessStart
  let stop := instCfg.offHoursAccessEnd
  let isOffHours := forceOffHours || decide (start ≤ hour) || decide (hour < stop)
  if !isOffHours then none
  else if forceOffHours then
    some { threatType := "unusual_access", threatLevel := 3,
           sourceIdentifier := source, requiresReview := true }
  else
    let pattern := st.hourlyDistribution source
    let totalRequests := (Finset.range 24).sum pattern
    if totalRequests < 20 then none
    else
      let offHoursCount :=
        ((Finset.range 24).filter (fun h => start ≤ h ∨ h < stop)).sum pattern
      let offHoursFrac : ℚ := offHoursCount / totalRequests
      if offHoursFrac < 1/10 then
        some { threatType := "unusual_access", threatLevel := 2,
               sourceIdentifier := source, requiresReview := true }
      else
        none

/-- `_check_unusual_endpoint_access` (institute_security.py lines
587-614): a sensitive-endpoint substring match with an access counter
still ≤ 1 yields a High privilege-escalation event. -/
def checkUnusualEndpointAccess (st : InstituteState) (source endpoint : String) :
    Option SecurityEvent :=
  let sensitiveEndpoints :=
    ["/admin", "/internal", "/debug", "/config", "/users/all", "/data/export", "/system"]
  if sensitiveEndpoints.any (fun s => strContains endpoint s) then
    if st.endpointCounts source endpoint ≤ 1 then
      some { threatType := "privilege_escalation", threatLevel := 3,
             sourceIdentifier := source, requiresReview := true }
    else
      none
  else
    none

/-- The event-handling tail of `monitor_api_request`
(institute_security.py lines 189-197): a detected event is stored in the
recent-events deque and the source is added to the blocked set when the
event's threat level is at least HIGH. -/
def storeAndBlock (st1 : InstituteState) (source : String)
    (event : Option SecurityEvent) : Option SecurityEvent × InstituteState :=
  match event with
  | none => (none, st1)
  | some e =>
      let st2 := { st1 with securityEvents := appendMax 10000 st1.securityEvents e }
      if 3 ≤ e.threatLevel then
        (some e, { st2 with blockedSources := addBlocked st2.blockedSources source })
      else
        (some e, st2)

/-- `monitor_api_request` (institute_security.py lines 110-197).  The
request is recorded and the access pattern updated first; the four
heuristics then run on the updated state in source order (off-hours,
unusual endpoint, error rate only on failures, request rate).  Specific
threats beat generic `api_abuse` ones; among the chosen group the first
event of maximal threat level wins; a detected event is stored, and the
source is blocked when its level is ≥ HIGH. -/
def monitorApiRequest (st : InstituteState) (source endpoint : String)
    (success : Bool) (responseTimeMs : ℚ) (now : ℚ) (hour : ℕ)
    (simulateOffHours : Bool) : Option SecurityEvent × InstituteState :=
  let record : ApiRecord :=
    { timestamp := now, endpoint := endpoint, success := success,
      latency := responseTimeMs }
  let st1 :=
    { st with
      apiRequestHistory := fun s =>
        if s = source then appendMax 1000 (st.apiRequestHistory s) record
        else st.apiRequestHistory s
      endpointCounts := fun s e =>
        if s = source ∧ e = endpoint then st.endpointCounts s e + 1
        else st.endpointCounts s e
      hourlyDistribution := fun s h =>
        if s = source ∧ h = hour then st.hourlyDistribution s h + 1
        else st.hourlyDistribution s h }
  let detected :=
    (match checkOffHoursAccess st1 source hour endpoint simulateOffHours with
     | some e => [e] | none => []) ++
    (match checkUnusualEndpointAccess st1 source endpoint with
     | some e => [e] | none => []) ++
    (if !success then
       match checkErrorRate st1 source with
       | some e => [e] | none => []
     else []) ++
    (match checkRequestRate st1 source now with
     | some e => [e] | none => [])
  let specific := detected.filter (fun e => e.threatType ≠ "api_abuse")
  let apiAbuse := detected.filter (fun e => e.threatType = "api_abuse")
  let event :=
    if specific ≠ [] then firstMaxByLevel specific
    else firstMaxByLevel apiAbuse
  storeAndBlock st1 source event

/-- `monitor_authentication` (institute_security.py lines 199-269).  A
successful attempt clears the failure window and returns no event; a
failure is appended (the deque holds at most 100 entries), entries older
than the 15-minute window are dropped from the front, and the remaining
count maps to a Critical brute-force event with an auto-block at the
critical floor or a High event without a block at the warning floor. -/
def monitorAuthentication (st : InstituteState) (source : String)
    (success : Bool) (now : ℚ) : Option SecurityEvent × InstituteState :=
  if success then
    (none,
      { st with
        failedAuthTracking := fun s =>
          if s = source then [] else st.failedAuthTracking s })
  else
    let windowSeconds : ℚ := (instCfg.failedAuthWindowMinutes : ℚ) * 60
    let appended := appendMax 100 (st.failedAuthTracking source) now
    let trimmed := appended.dropWhile (fun t => windowSeconds < now - t)
    let st1 :=
      { st with
        failedAuthTracking := fun s =>
          if s = source then trimmed else st.failedAuthTracking s }
    let failureCount := trimmed.length
    if instCfg.failedAuthAttemptsCritical ≤ failureCount then
      let e : SecurityEvent :=
        { threatType := "brute_force", threatLevel := 4,
          sourceIdentifier := source, requiresReview := true }
      (some e,
        { st1 with
          securityEvents := appendMax 10000 st1.securityEvents e
          blockedSources := addBlocked st1.blockedSources source })
    else if instCfg.failedAuthAttemptsWarning ≤ failureCount then
      let e : SecurityEvent :=
        { threatType := "brute_force", threatLevel := 3,
          sourceIdentifier := source, requiresReview := true }
      (some e, { st1 with securityEvents := appendMax 10000 st1.securityEvents e })
    else
      (none, st1)

/-- `monitor_data_access` (institute_security.py lines 271-336).  The
per-(source, data type) running statistics are updated first; once the
updated sample count exceeds 5, an access above
`avg * unusual_data_volume_multiplier` yields a data-exfiltration event,
Critical when the data is flagged sensitive and High otherwise.  The
blocked-sources set is never touched by this operation. -/
def monitorDataAccess (st : InstituteState) (source dataType : String)
    (recordCount : ℕ) (sensitive : Bool) : Option SecurityEvent × InstituteState :=
  let prior := (st.dataStats source dataType).getD ⟨0, 0, 0⟩
  let total := prior.total + recordCount
  let count := prior.count + 1
  let stats : DataStats := ⟨total, count, total / count⟩
  let st1 :=
    { st with
      dataStats := fun s d =>
        if s = source ∧ d = dataType then some stats else st.dataStats s d }
  if 5 < count then
    let threshold := stats.avg * instCfg.unusualDataVolumeMultiplier
    if threshold < (recordCount : ℚ) then
      let e : SecurityEvent :=
        { threatType := "data_exfiltration",
          threatLevel := if sensitive then 4 else 3,
          sourceIdentifier := source, requiresReview := true }
      (some e, { st1 with securityEvents := appendMax 10000 st1.securityEvents e })
    else
      (none, st1)
  else
    (none, st1)

end InstituteSecurityEngine

/-! ## Helper lemmas -/

/-- `consume` never changes a bucket's capacity or refill rate. -/
theorem TokenBucket.consume_capacity (b : TokenBucket) (now : ℚ) (cost : ℕ) :
    ((b.consume now cost).2).capacity = b.capacity ∧
    ((b.consume now cost).2).refillRate = b.refillRate := by
  simp only [TokenBucket.consume]
  split <;> simp

/-- The bucket stored for the checked source after `checkCore` is the
consume result of the looked-up-or-created bucket. -/
theorem RateLimiter.checkCore_buckets_self (st : RateLimiter) (source : String)
    (now : ℚ) (cost : ℕ) :
    (RateLimiter.checkCore st source now cost).2.buckets source =
      some ((RateLimiter.bucketFor st source now).consume now cost).2 := by
  simp only [RateLimiter.checkCore]
  split
  · simp
  · split <;> simp

/-! ## Claim theorems -/

/-- Claim C2: for every rule verdict with action Block, `make_decision`
returns decision code 4 with score 1.0, reasons equal to the rule
reasons, and no ML fields, and the ML collaborator is not invoked (the
invocation flag of the model is `false`). -/
theorem ruleBlock_shortCircuits_pipeline
    (buildReasons : RulesDict → MLResult → List String) (th : Thresholds)
    (rules : RuleResult) (ml : MLResult)
    (h : rules.action = RuleAction.block) :
    makeDecision buildReasons th rules ml =
      ({ decisionCode := 4, score := 1, reasons := rules.reasons,
         ruleFlags := rules.reasons, mlScore := none }, false) := by
  simp [makeDecision, h]

/-- Concrete instance of Claim C2's theorem. -/
theorem ruleBlock_shortCircuits_pipeline_witness :
    makeDecision (fun _ _ => []) defaultThresholds
        ⟨RuleAction.block, ["denied_user"]⟩ ⟨1/2⟩ =
      ({ decisionCode := 4, score := 1, reasons := ["denied_user"],
         ruleFlags := ["denied_user"], mlScore := none }, false) :=
  ruleBlock_shortCircuits_pipeline (fun _ _ => []) defaultThresholds
    ⟨RuleAction.block, ["denied_user"]⟩ ⟨1/2⟩ rfl

/-- Claim C3: `PolicyEngine.decide` is monotonic in the model score for
non-blocked rules results: a larger score never yields a smaller
decision code, for every threshold configuration (in particular for any
configuration reachable through `update_threshold`). -/
theorem decide_monotone_in_score (th : Thresholds) (rd : RulesDict)
    (ml1 ml2 : MLResult) (hb : rd.blocked = false)
    (hle : ml1.score ≤ ml2.score) :
    (PolicyEngine.decide th rd ml1).decisionCode ≤
      (PolicyEngine.decide th rd ml2).decisionCode := by
  simp only [PolicyEngine.decide, hb, Bool.false_eq_true, if_false,
    PolicyEngine.decisionCode]
  split_ifs <;> (first | omega | (exfalso; linarith))

/-- Concrete instance of Claim C3's theorem. -/
theorem decide_monotone_in_score_witness :
    (PolicyEngine.decide defaultThresholds ⟨false, []⟩ ⟨3/10⟩).decisionCode ≤
      (PolicyEngine.decide defaultThresholds ⟨false, []⟩ ⟨8/10⟩).decisionCode :=
  decide_monotone_in_score defaultThresholds ⟨false, []⟩ ⟨3/10⟩ ⟨8/10⟩ rfl (by norm_num)

/-- A fixed benign transaction used for concrete instances. -/
def txnStub : Transaction :=
  { userId := some "u1", deviceId := some "d1", amount := 100,
    time := ⟨0, 12⟩, ipAddress := none, merchantId := none }

/-- Counterexample to Claim C9: in stub mode the fallback score of
`MLEngine.predict` is drawn from the PRNG, so two calls with the same
transaction but different PRNG draws return different scores (draws 0
and 1/2 give 0.1 and 0.3). -/
theorem stubScore_not_deterministic :
    predictStubScore txnStub 0 ≠ predictStubScore txnStub (1/2) := by
  norm_num [predictStubScore, round3, mlStubRawScore, round_eq]

/-- Claim C9 (amended): the stub fallback score of `MLEngine.predict` is
a function of the PRNG draw alone — it is identical across transactions
for a fixed draw, and the raw draw `uniform(0.1, 0.5)` lies in
`[0.1, 0.5]` for unit draws in `[0, 1]` — but it is not a function of
the transaction: it varies with the PRNG draw. -/
theorem stubScore_depends_only_on_rng (t t' : Transaction) (u : ℚ)
    (h0 : 0 ≤ u) (h1 : u ≤ 1) :
    predictStubScore t u = predictStubScore t' u ∧
    1/10 ≤ mlStubRawScore u ∧ mlStubRawScore u ≤ 1/2 := by
  refine ⟨rfl, ?_, ?_⟩ <;> (simp only [mlStubRawScore]; nlinarith)

/-- Concrete instance of Claim C9's amended theorem. -/
theorem stubScore_depends_only_on_rng_witness :
    predictStubScore txnStub (1/2) = predictStubScore txnStub (1/2) ∧
    1/10 ≤ mlStubRawScore (1/2) ∧ mlStubRawScore (1/2) ≤ 1/2 :=
  stubScore_depends_only_on_rng txnStub txnStub (1/2) (by norm_num) (by norm_num)

/-- Claim C10: a source never assigned a tier is treated as Basic on its
first `check_rate_limit` call: the tier lookup yields Basic and the
bucket created for it has burst capacity 30 and refill rate 100/60
tokens per second. -/
theorem firstSight_default_tier_basic (st : RateLimiter) (s : String)
    (now : ℚ) (cost : ℕ) (htier : st.tiers s = none)
    (hblock : st.blockedUntil s = none) (hbucket : st.buckets s = none) :
    st.tierOf s = RateLimitTier.basic ∧
    ∀ b, (st.checkRateLimit s now cost).2.buckets s = some b →
      b.capacity = 30 ∧ b.refillRate = 100/60 := by
  have ht : st.tierOf s = RateLimitTier.basic := by
    simp [RateLimiter.tierOf, htier]
  refine ⟨ht, ?_⟩
  intro b hb
  simp only [RateLimiter.checkRateLimit, hblock] at hb
  rw [RateLimiter.checkCore_buckets_self] at hb
  have hfresh : RateLimiter.bucketFor st s now =
      { capacity := 30, refillRate := 100/60, tokens := 30, lastRefill := now } := by
    simp [RateLimiter.bucketFor, hbucket, ht, tierConfigs]
  obtain ⟨hc, hr⟩ := TokenBucket.consume_capacity (RateLimiter.bucketFor st s now) now cost
  have hb' : ((RateLimiter.bucketFor st s now).consume now cost).2 = b :=
    Option.some.inj hb
  rw [hb'] at hc hr
  rw [hfresh] at hc hr
  exact ⟨hc, hr⟩

/-- Claim C8: once at least 5 data-access samples exist for a
(source, data type) pair, a `monitor_data_access` call whose record count
exceeds 3 times the running mean volume (the mean maintained by the
engine, which includes the current access) returns a data-exfiltration
event — Critical when the data is sensitive, High otherwise — and
returns no event when the count is not above the threshold; with fewer
than 5 prior samples no event is ever returned. -/
theorem dataExfiltration_detection (st : InstituteState)
    (source dataType : String) (recordCount : ℕ) (sensitive : Bool) :
    (5 ≤ ((st.dataStats source dataType).getD ⟨0, 0, 0⟩).count →
      (((((st.dataStats source dataType).getD ⟨0, 0, 0⟩).total + recordCount) /
            ((((st.dataStats source dataType).getD ⟨0, 0, 0⟩).count : ℚ) + 1) * 3 <
          (recordCount : ℚ) →
        (InstituteSecurityEngine.monitorDataAccess st source dataType recordCount
            sensitive).1 =
          some { threatType := "data_exfiltration",
                 threatLevel := if sensitive then 4 else 3,
                 sourceIdentifier := source, requiresReview := true }) ∧
       (¬ ((((st.dataStats source dataType).getD ⟨0, 0, 0⟩).total + recordCount) /
            ((((st.dataStats source dataType).getD ⟨0, 0, 0⟩).count : ℚ) + 1) * 3 <
          (recordCount : ℚ)) →
        (InstituteSecurityEngine.monitorDataAccess st source dataType recordCount
            sensitive).1 = none))) ∧
    (((st.dataStats source dataType).getD ⟨0, 0, 0⟩).count < 5 →
      (InstituteSecurityEngine.monitorDataAccess st source dataType recordCount
          sensitive).1 = none) := by
  have hcast :
      ((((st.dataStats source dataType).getD ⟨0, 0, 0⟩).count + 1 : ℕ) : ℚ) =
        (((st.dataStats source dataType).getD ⟨0, 0, 0⟩).count : ℚ) + 1 := by
    push_cast
    ring
  constructor
  · intro h5
    constructor
    · intro hlt
      simp only [InstituteSecurityEngine.monitorDataAccess, instCfg]
      rw [if_pos (by omega), if_pos (by rw [hcast]; linarith)]
    · intro hge
      simp only [InstituteSecurityEngine.monitorDataAccess, instCfg]
      rw [if_pos (by omega), if_neg (by rw [hcast]; linarith)]
  · intro h5
    simp only [InstituteSecurityEngine.monitorDataAccess, instCfg]
    rw [if_neg (by omega)]

/-- A state with 5 prior data-access samples of 10 records each for
("src", "records"), used for concrete instances. -/
def istData : InstituteState :=
  { InstituteSecurityEngine.init with
    dataStats := fun s d =>
      if s = "src" ∧ d = "records" then some ⟨50, 5, 10⟩ else none }

/-- Concrete instance of Claim C8's theorem: with 5 samples averaging 10
records, a non-sensitive access of 100 records (above 3 times the
updated running mean 25) yields a High data-exfiltration event. -/
theorem dataExfiltration_detection_witness :
    (InstituteSecurityEngine.monitorDataAccess istData "src" "records" 100
        false).1 =
      some { threatType := "data_exfiltration", threatLevel := 3,
             sourceIdentifier := "src", requiresReview := true } :=
  (((dataExfiltration_detection istData "src" "records" 100 false).1
      (by norm_num [istData])).1
    (by norm_num [istData]))

/-- A state with 4 recent failed authentication attempts for "src", used
for concrete instances. -/
def istAuth : InstituteState :=
  { InstituteSecurityEngine.init with
    failedAuthTracking := fun s => if s = "src" then [100, 100, 100, 100] else [] }

/-- A state with 9 recent failed authentication attempts for "src", used
for concrete instances of the Critical brute-force path. -/
def istAuthNine : InstituteState :=
  { InstituteSecurityEngine.init with
    failedAuthTracking := fun s =>
      if s = "src" then [100, 100, 100, 100, 100, 100, 100, 100, 100] else [] }

/-- Counterexample to Claim C7: a High (threat level 3) event does not
always block its source.  A fifth failed authentication returns a High
brute-force event with the source left unblocked, and a data-access
spike returns a High data-exfiltration event with the source left
unblocked. -/
theorem highEvent_without_autoBlock :
    ((InstituteSecurityEngine.monitorAuthentication istAuth "src" false 100).1 =
        some { threatType := "brute_force", threatLevel := 3,
               sourceIdentifier := "src", requiresReview := true } ∧
      ¬ "src" ∈ (InstituteSecurityEngine.monitorAuthentication istAuth "src"
          false 100).2.blockedSources) ∧
    ((InstituteSecurityEngine.monitorDataAccess istData "src" "records" 100
          false).1 =
        some { threatType := "data_exfiltration", threatLevel := 3,
               sourceIdentifier := "src", requiresReview := true } ∧
      ¬ "src" ∈ (InstituteSecurityEngine.monitorDataAccess istData "src"
          "records" 100 false).2.blockedSources) := by
  constructor
  · constructor
    · norm_num [InstituteSecurityEngine.monitorAuthentication, istAuth,
        InstituteSecurityEngine.appendMax, InstituteSecurityEngine.init, instCfg,
        List.dropWhile]
    · norm_num [InstituteSecurityEngine.monitorAuthentication, istAuth,
        InstituteSecurityEngine.appendMax, InstituteSecurityEngine.init, instCfg,
        List.dropWhile]
  · constructor
    · norm_num [InstituteSecurityEngine.monitorDataAccess, istData,
        InstituteSecurityEngine.appendMax, InstituteSecurityEngine.init, instCfg]
    · norm_num [InstituteSecurityEngine.monitorDataAccess, istData,
        InstituteSecurityEngine.appendMax, InstituteSecurityEngine.init, instCfg]

/-- Membership in the blocked set after a Python `set.add`. -/
theorem InstituteSecurityEngine.mem_addBlocked (l : List String) (s : String) :
    s ∈ InstituteSecurityEngine.addBlocked l s := by
  by_cases h : s ∈ l <;> simp [InstituteSecurityEngine.addBlocked, h]

/-- `storeAndBlock` blocks the source whenever the stored event has
threat level at least HIGH. -/
theorem InstituteSecurityEngine.storeAndBlock_mem (st1 : InstituteState)
    (source : String) (ev : Option SecurityEvent) (e : SecurityEvent)
    (h : (InstituteSecurityEngine.storeAndBlock st1 source ev).1 = some e)
    (hl : 3 ≤ e.threatLevel) :
    source ∈ (InstituteSecurityEngine.storeAndBlock st1 source ev).2.blockedSources := by
  cases ev with
  | none => simp [InstituteSecurityEngine.storeAndBlock] at h
  | some e' =>
      simp only [InstituteSecurityEngine.storeAndBlock] at h ⊢
      split at h
      · cases h
        simp_all [InstituteSecurityEngine.mem_addBlocked]
      · cases h
        simp_all

/-- Claim C7 (amended): the auto-block rules of the three observation
operations.  `monitor_api_request` blocks the source whenever it returns
an event of threat level at least High; `monitor_authentication` blocks
the source on a Critical brute-force event but leaves the blocked set
unchanged on a High one; `monitor_data_access` never modifies the
blocked set. -/
theorem observation_autoBlock_rules :
    (∀ (st : InstituteState) (source endpoint : String) (success : Bool)
        (latency now : ℚ) (hour : ℕ) (sim : Bool) (e : SecurityEvent),
      (InstituteSecurityEngine.monitorApiRequest st source endpoint success
          latency now hour sim).1 = some e →
      3 ≤ e.threatLevel →
      source ∈ (InstituteSecurityEngine.monitorApiRequest st source endpoint
          success latency now hour sim).2.blockedSources) ∧
    (∀ (st : InstituteState) (source : String) (success : Bool) (now : ℚ)
        (e : SecurityEvent),
      (InstituteSecurityEngine.monitorAuthentication st source success now).1 =
          some e →
      ((e.threatLevel = 4 →
        source ∈ (InstituteSecurityEngine.monitorAuthentication st source
            success now).2.blockedSources) ∧
       (e.threatLevel = 3 →
        (InstituteSecurityEngine.monitorAuthentication st source success
            now).2.blockedSources = st.blockedSources))) ∧
    (∀ (st : InstituteState) (source dataType : String) (recordCount : ℕ)
        (sensitive : Bool),
      (InstituteSecurityEngine.monitorDataAccess st source dataType recordCount
          sensitive).2.blockedSources = st.blockedSources) := by
  refine ⟨?_, ?_, ?_⟩
  · intro st source endpoint success latency now hour sim e h hl
    exact InstituteSecurityEngine.storeAndBlock_mem _ _ _ _ h hl
  · intro st source success now e h
    cases success with
    | true => simp [InstituteSecurityEngine.monitorAuthentication] at h
    | false =>
        simp only [InstituteSecurityEngine.monitorAuthentication,
          Bool.false_eq_true, if_false] at h ⊢
        split at h
        · rename_i hcond
          cases h
          rw [if_pos hcond]
          constructor
          · intro _
            exact InstituteSecurityEngine.mem_addBlocked _ _
          · intro h3
            simp at h3
        · rename_i hcond
          rw [if_neg hcond]
          split at h
          · rename_i hcond2
            cases h
            rw [if_pos hcond2]
            constructor
            · intro h4
              simp at h4
            · intro _
              rfl
          · cases h
  · intro st source dataType recordCount sensitive
    simp only [InstituteSecurityEngine.monitorDataAccess]
    split
    · split <;> rfl
    · rfl

/-- Concrete instance of Claim C7's amended theorem: a forced off-hours
High event from `monitor_api_request` blocks its source; a Critical
brute-force event (10th failed attempt) blocks its source; a
`monitor_data_access` call leaves the blocked set unchanged. -/
theorem observation_autoBlock_rules_witness :
    "src" ∈ (InstituteSecurityEngine.monitorApiRequest
        InstituteSecurityEngine.init "src" "/x" true 5 1000 12
        true).2.blockedSources ∧
    "src" ∈ (InstituteSecurityEngine.monitorAuthentication istAuthNine "src"
        false 100).2.blockedSources ∧
    (InstituteSecurityEngine.monitorDataAccess istData "src" "records" 100
        false).2.blockedSources = istData.blockedSources := by
  refine ⟨?_, ?_, ?_⟩
  · refine observation_autoBlock_rules.1 InstituteSecurityEngine.init "src" "/x"
      true 5 1000 12 true
      { threatType := "unusual_access", threatLevel := 3,
        sourceIdentifier := "src", requiresReview := true } ?_ (by norm_num)
    norm_num [InstituteSecurityEngine.monitorApiRequest,
      InstituteSecurityEngine.init, InstituteSecurityEngine.appendMax,
      InstituteSecurityEngine.checkOffHoursAccess,
      InstituteSecurityEngine.checkUnusualEndpointAccess,
      InstituteSecurityEngine.checkErrorRate,
      InstituteSecurityEngine.checkRequestRate,
      InstituteSecurityEngine.firstMaxByLevel,
      InstituteSecurityEngine.storeAndBlock,
      InstituteSecurityEngine.strContains,
      InstituteSecurityEngine.charsContain, instCfg]
    decide
  · refine (observation_autoBlock_rules.2.1 istAuthNine "src" false 100
      { threatType := "brute_force", threatLevel := 4,
        sourceIdentifier := "src", requiresReview := true } ?_).1 (by norm_num)
    norm_num [InstituteSecurityEngine.monitorAuthentication, istAuthNine,
      InstituteSecurityEngine.appendMax, InstituteSecurityEngine.init, instCfg,
      List.dropWhile]
  · exact observation_autoBlock_rules.2.2 istData "src" "records" 100 false

/-- When any deny-list reason fires, `evaluate` returns an immediate
Block carrying exactly the deny reasons and leaves the state unchanged. -/
theorem RulesEngine.evaluate_denyShortCircuit (cfg : RulesConfig)
    (st : RulesState) (txn : Transaction)
    (h : RulesEngine.checkDenylists st txn.userId txn.deviceId txn.ipAddress
        txn.merchantId ≠ []) :
    RulesEngine.evaluate cfg st txn =
      (⟨RuleAction.block,
        RulesEngine.checkDenylists st txn.userId txn.deviceId txn.ipAddress
          txn.merchantId⟩, st) := by
  simp only [RulesEngine.evaluate]
  rw [if_pos h]

/-- Claim C1 (amended): a transaction whose *non-empty* user id, device
id, ip address or merchant id is on the corresponding deny list is
evaluated to a verdict whose sole action is Block, with the matching deny
code among the reasons, regardless of the transaction's other fields.
(The Python truthiness guard `if user_id and ...` means an empty-string
identifier never matches a deny list.) -/
theorem denylisted_entity_blocks (cfg : RulesConfig) (st : RulesState)
    (txn : Transaction) :
    (∀ u, txn.userId = some u → u ≠ "" → u ∈ st.deniedUsers →
      (RulesEngine.evaluate cfg st txn).1.action = RuleAction.block ∧
      "denied_user" ∈ (RulesEngine.evaluate cfg st txn).1.reasons) ∧
    (∀ d, txn.deviceId = some d → d ≠ "" → d ∈ st.deniedDevices →
      (RulesEngine.evaluate cfg st txn).1.action = RuleAction.block ∧
      "denied_device" ∈ (RulesEngine.evaluate cfg st txn).1.reasons) ∧
    (∀ i, txn.ipAddress = some i → i ≠ "" → i ∈ st.deniedIps →
      (RulesEngine.evaluate cfg st txn).1.action = RuleAction.block ∧
      "denied_ip" ∈ (RulesEngine.evaluate cfg st txn).1.reasons) ∧
    (∀ m, txn.merchantId = some m → m ≠ "" → m ∈ st.deniedMerchants →
      (RulesEngine.evaluate cfg st txn).1.action = RuleAction.block ∧
      "denied_merchant" ∈ (RulesEngine.evaluate cfg st txn).1.reasons) := by
  have core :
      ∀ code : String,
        code ∈ RulesEngine.checkDenylists st txn.userId txn.deviceId
          txn.ipAddress txn.merchantId →
        (RulesEngine.evaluate cfg st txn).1.action = RuleAction.block ∧
        code ∈ (RulesEngine.evaluate cfg st txn).1.reasons := by
    intro code hmem
    have hne : RulesEngine.checkDenylists st txn.userId txn.deviceId
        txn.ipAddress txn.merchantId ≠ [] := by
      intro hc
      rw [hc] at hmem
      exact List.not_mem_nil code hmem
    rw [RulesEngine.evaluate_denyShortCircuit cfg st txn hne]
    exact ⟨rfl, hmem⟩
  refine ⟨?_, ?_, ?_, ?_⟩
  · intro u hu hne hmem
    refine core "denied_user" ?_
    simp only [RulesEngine.checkDenylists, hu, pyTruthy, pyStr]
    refine List.mem_append_left _ (List.mem_append_left _
      (List.mem_append_left _ ?_))
    rw [if_pos ⟨by simp [hne], hmem⟩]
    simp
  · intro d hd hne hmem
    refine core "denied_device" ?_
    simp only [RulesEngine.checkDenylists, hd, pyTruthy, pyStr]
    refine List.mem_append_left _ (List.mem_append_left _
      (List.mem_append_right _ ?_))
    rw [if_pos ⟨by simp [hne], hmem⟩]
    simp
  · intro i hi hne hmem
    refine core "denied_ip" ?_
    simp only [RulesEngine.checkDenylists, hi, pyTruthy, pyStr]
    refine List.mem_append_left _ (List.mem_append_right _ ?_)
    rw [if_pos ⟨by simp [hne], hmem⟩]
    simp
  · intro m hm hne hmem
    refine core "denied_merchant" ?_
    simp only [RulesEngine.checkDenylists, hm, pyTruthy, pyStr]
    refine List.mem_append_right _ ?_
    rw [if_pos ⟨by simp [hne], hmem⟩]
    simp

/-- Deny-list state with user "fraud_user_1" denied. -/
def stDeny : RulesState :=
  { deniedUsers := ["fraud_user_1"], deniedDevices := [], deniedIps := [],
    deniedMerchants := [], velocityTracker := fun _ => [],
    userTransactionCount := fun _ => 0, userAmounts := fun _ => [] }

/-- Transaction by the denied user. -/
def txnDeny : Transaction :=
  { userId := some "fraud_user_1", deviceId := some "d1", amount := 99999,
    time := ⟨1000, 12⟩, ipAddress := none, merchantId := none }

/-- Concrete instance of Claim C1's amended theorem. -/
theorem denylisted_entity_blocks_witness :
    (RulesEngine.evaluate defaultRulesConfig stDeny txnDeny).1.action =
      RuleAction.block ∧
    "denied_user" ∈ (RulesEngine.evaluate defaultRulesConfig stDeny
      txnDeny).1.reasons :=
  (denylisted_entity_blocks defaultRulesConfig stDeny txnDeny).1
    "fraud_user_1" rfl (by decide) (by simp [stDeny])

/-- Deny-list state whose user deny list contains the empty string. -/
def stDenyEmpty : RulesState :=
  { stDeny with deniedUsers := [""] }

/-- Transaction whose user id is the empty string. -/
def txnEmptyUser : Transaction :=
  { txnDeny with userId := some "", amount := 100 }

/-- Counterexample to Claim C1: a transaction whose user id is on the
user deny list is *not* blocked when that id is the empty string — the
Python truthiness guard `if user_id and user_id in self.denied_users`
skips falsy identifiers, and with all other checks benign the verdict is
Allow. -/
theorem denylisted_empty_user_not_blocked :
    txnEmptyUser.userId = some "" ∧ "" ∈ stDenyEmpty.deniedUsers ∧
    (RulesEngine.evaluate defaultRulesConfig stDenyEmpty
        txnEmptyUser).1.action ≠ RuleAction.block := by
  refine ⟨rfl, by simp [stDenyEmpty, stDeny], ?_⟩
  norm_num [RulesEngine.evaluate, RulesEngine.checkDenylists,
    RulesEngine.checkVelocity, RulesEngine.countRecentTransactions,
    RulesEngine.checkTimeAnomaly, RulesEngine.checkAmountRules,
    RulesEngine.trackTransaction, pyTruthy, pyStr, defaultRulesConfig,
    stDenyEmpty, stDeny, txnEmptyUser, txnDeny]
  decide

/-- Claim C6: the velocity window consulted by a check (the pruned list
that `_count_recent_transactions` stores back and counts) contains only
timestamps strictly within the retention horizon at the moment of the
check; pruning only removes entries (the new window is a sublist of the
old) and the returned count is the length of the consulted window; and
tracking a transaction only appends the current timestamp — every entry
of a window after tracking was already in the window or is the newly
tracked timestamp, so a pruned-away entry is never re-added. -/
theorem velocityWindow_retention (st : RulesState) (key : String)
    (now : ℚ) (hours : ℕ) :
    ((∀ t ∈ (RulesEngine.countRecentTransactions st key now
        hours).2.velocityTracker key, now - hours * 3600 < t) ∧
      ((RulesEngine.countRecentTransactions st key now
          hours).2.velocityTracker key).Sublist (st.velocityTracker key) ∧
      (RulesEngine.countRecentTransactions st key now hours).1 =
        ((RulesEngine.countRecentTransactions st key now
            hours).2.velocityTracker key).length) ∧
    (∀ (cfg : RulesConfig) (uid did : Option String) (amount tm : ℚ)
        (k : String),
      ∀ x ∈ (RulesEngine.trackTransaction cfg st uid did amount
          tm).velocityTracker k,
        x ∈ st.velocityTracker k ∨ x = tm) := by
  constructor
  · refine ⟨?_, ?_, ?_⟩
    · intro t ht
      simp only [RulesEngine.countRecentTransactions] at ht
      simp [List.mem_filter] at ht
      exact ht.2
    · simp only [RulesEngine.countRecentTransactions]
      simp [List.filter_sublist]
    · simp [RulesEngine.countRecentTransactions]
  · intro cfg uid did amount tm k x hx
    simp only [RulesEngine.trackTransaction] at hx
    split_ifs at hx <;>
      (try simp only [List.mem_append, List.mem_singleton] at hx) <;> tauto

/-- Velocity state with window [500, 100] for key "k". -/
def stWin : RulesState :=
  { stDeny with
    deniedUsers := []
    velocityTracker := fun k => if k = "k" then [500, 100] else [] }

/-- Concrete instance of Claim C6's theorem: pruning [500, 100] at time
4000 with a 1-hour horizon retains 500 (within horizon), yields a
sublist of the original window, and tracking only appends the new
timestamp. -/
theorem velocityWindow_retention_witness :
    ((4000 : ℚ) - 1 * 3600 < 500) ∧
    ((RulesEngine.countRecentTransactions stWin "k" 4000
        1).2.velocityTracker "k").Sublist (stWin.velocityTracker "k") ∧
    ((77 : ℚ) ∈ stWin.velocityTracker "user:u1" ∨ (77 : ℚ) = 77) := by
  refine ⟨?_, ?_, ?_⟩
  · refine (velocityWindow_retention stWin "k" 4000 1).1.1 500 ?_
    norm_num [RulesEngine.countRecentTransactions, stWin, stDeny]
  · exact (velocityWindow_retention stWin "k" 4000 1).1.2.1
  · refine (velocityWindow_retention stWin "k" 4000 1).2 defaultRulesConfig
      (some "u1") (some "d1") 50 77 "user:u1" 77 ?_
    norm_num [RulesEngine.trackTransaction, pyStr, stWin, stDeny,
      defaultRulesConfig]
    decide

/-- A limiter state holding one violation for "s" and no block. -/
def stViol : RateLimiter :=
  { RateLimiter.init with violations := fun s => if s = "s" then [0] else [] }

/-- Counterexample to Claim C5: `unblock_source` does *not* always reset
the violation counter — called on a source that is not currently blocked
it is a no-op, leaving the recorded violation in place. -/
theorem unblock_nonBlocked_keeps_violations :
    stViol.blockedUntil "s" = none ∧
    (RateLimiter.unblockSource stViol "s").2.violations "s" ≠ [] := by
  constructor
  · rfl
  · norm_num [RateLimiter.unblockSource, stViol, RateLimiter.init]

/-- Claim C5 (amended): a `check_rate_limit` call rejected by the bucket
whose recorded violations number 3 or more within the trailing 5-minute
window sets a temporary block of the tier's duration; while the block is
active every `check_rate_limit` call is rejected with the state (and in
particular the bucket) untouched; and `unblock_source` on a *currently
blocked* source clears its block, resets its violation list to empty and
removes its bucket (so the next request recreates it at full capacity),
while on a non-blocked source it is a no-op returning `false`. -/
theorem violations_trigger_block (st : RateLimiter) (source : String)
    (now : ℚ) (cost : ℕ) :
    (((RateLimiter.bucketFor st source now).consume now cost).1 = false →
      st.blockedUntil source = none →
      3 ≤ ((st.violations source ++ [now]).filter
          (fun t => now - t < 300)).length →
      (st.checkRateLimit source now cost).1 = false ∧
      (st.checkRateLimit source now cost).2.blockedUntil source =
        some (now + (tierConfigs (st.tierOf source)).blockDurationSeconds)) ∧
    (∀ ub, st.blockedUntil source = some ub → now < ub →
      st.checkRateLimit source now cost = (false, st)) ∧
    ((st.blockedUntil source).isSome →
      (RateLimiter.unblockSource st source).1 = true ∧
      (RateLimiter.unblockSource st source).2.blockedUntil source = none ∧
      (RateLimiter.unblockSource st source).2.violations source = [] ∧
      (RateLimiter.unblockSource st source).2.buckets source = none) ∧
    (st.blockedUntil source = none →
      RateLimiter.unblockSource st source = (false, st)) := by
  refine ⟨?_, ?_, ?_, ?_⟩
  · intro hfail hnb hcount
    have hcore : (RateLimiter.checkCore st source now cost).1 = false ∧
        (RateLimiter.checkCore st source now cost).2.blockedUntil source =
          some (now + (tierConfigs (st.tierOf source)).blockDurationSeconds) := by
      simp only [RateLimiter.checkCore, hfail, Bool.false_eq_true, if_false]
      rw [if_pos hcount]
      simp
    simpa only [RateLimiter.checkRateLimit, hnb] using hcore
  · intro ub hub hlt
    simp only [RateLimiter.checkRateLimit, hub]
    rw [if_pos hlt]
  · intro hsome
    obtain ⟨ub, hub⟩ := Option.isSome_iff_exists.mp hsome
    simp [RateLimiter.unblockSource, hub]
  · intro hnone
    simp [RateLimiter.unblockSource, hnone]

/-- A limiter state for "s" with an empty bucket and two recent
violations. -/
def stFail : RateLimiter :=
  { RateLimiter.init with
    buckets := fun s =>
      if s = "s" then
        some { capacity := 30, refillRate := 5/3, tokens := 0, lastRefill := 100 }
      else none
    violations := fun s => if s = "s" then [10, 20] else [] }

/-- A limiter state with "s" blocked until instant 1000. -/
def stBlocked : RateLimiter :=
  { RateLimiter.init with
    blockedUntil := fun s => if s = "s" then some 1000 else none }

/-- Concrete instance of Claim C5's amended theorem: a third violation at
instant 100 blocks "s" for the Basic-tier duration 300; a call at
instant 5 against a block until 1000 is rejected with the state
untouched; unblocking the blocked source clears block, violations and
bucket. -/
theorem violations_trigger_block_witness :
    ((stFail.checkRateLimit "s" 100 1).1 = false ∧
      (stFail.checkRateLimit "s" 100 1).2.blockedUntil "s" =
        some ((100 : ℚ) +
          ((tierConfigs (stFail.tierOf "s")).blockDurationSeconds : ℚ))) ∧
    stBlocked.checkRateLimit "s" 5 1 = (false, stBlocked) ∧
    ((RateLimiter.unblockSource stBlocked "s").1 = true ∧
      (RateLimiter.unblockSource stBlocked "s").2.blockedUntil "s" = none ∧
      (RateLimiter.unblockSource stBlocked "s").2.violations "s" = [] ∧
      (RateLimiter.unblockSource stBlocked "s").2.buckets "s" = none) ∧
    RateLimiter.unblockSource stViol "s" = (false, stViol) := by
  refine ⟨?_, ?_, ?_, ?_⟩
  · refine (violations_trigger_block stFail "s" 100 1).1 ?_ rfl ?_
    · norm_num [RateLimiter.bucketFor, TokenBucket.consume, stFail,
        RateLimiter.init]
    · norm_num [stFail, RateLimiter.init, List.filter]
  · exact (violations_trigger_block stBlocked "s" 5 1).2.1 1000 rfl
      (by norm_num)
  · exact (violations_trigger_block stBlocked "s" 5 1).2.2.1 rfl
  · exact (violations_trigger_block stViol "s" 0 1).2.2.2 rfl

/-- `BucketInv` is monotone in the clock. -/
theorem RateLimiter.BucketInv.mono {c c' : ℚ} {b : TokenBucket}
    (h : RateLimiter.BucketInv c b) (hcc : c ≤ c') :
    RateLimiter.BucketInv c' b :=
  ⟨h.1, h.2.1, h.2.2.1, h.2.2.2.1, le_trans h.2.2.2.2 hcc⟩

/-- `consume` preserves the bucket invariant when the clock does not run
backwards. -/
theorem TokenBucket.consume_inv (clock now : ℚ) (b : TokenBucket) (cost : ℕ)
    (h : RateLimiter.BucketInv clock b) (hle : clock ≤ now) :
    RateLimiter.BucketInv now (b.consume now cost).2 := by
  obtain ⟨h0, h1, hcap, hrate, hlast⟩ := h
  have helapsed : 0 ≤ (now - b.lastRefill) * b.refillRate := by
    apply mul_nonneg _ hrate
    linarith
  have hrefl0 : 0 ≤ min b.capacity (b.tokens + (now - b.lastRefill) * b.refillRate) :=
    le_min hcap (by linarith)
  have hrefl1 : min b.capacity (b.tokens + (now - b.lastRefill) * b.refillRate) ≤
      b.capacity := min_le_left _ _
  have hcost : (0 : ℚ) ≤ cost := Nat.cast_nonneg cost
  simp only [TokenBucket.consume]
  split
  · rename_i hc
    refine ⟨?_, ?_, hcap, hrate, le_refl _⟩ <;> (dsimp only; linarith)
  · exact ⟨hrefl0, hrefl1, hcap, hrate, le_refl _⟩

/-- The looked-up-or-created bucket satisfies the invariant at the
current instant. -/
theorem RateLimiter.bucketFor_inv (clock now : ℚ) (st : RateLimiter)
    (source : String) (h : RateLimiter.StateInv clock st) (hle : clock ≤ now) :
    RateLimiter.BucketInv now (RateLimiter.bucketFor st source now) := by
  cases hbs : st.buckets source with
  | some b =>
      simp only [RateLimiter.bucketFor, hbs]
      exact (h source b hbs).mono hle
  | none =>
      simp only [RateLimiter.bucketFor, hbs]
      refine ⟨Nat.cast_nonneg _, le_refl _, Nat.cast_nonneg _, ?_, le_refl _⟩
      positivity

/-- The bucket map after `checkCore`: only the checked source's bucket
changes, to the consume result. -/
theorem RateLimiter.checkCore_buckets (st : RateLimiter) (source : String)
    (now : ℚ) (cost : ℕ) (s : String) :
    (RateLimiter.checkCore st source now cost).2.buckets s =
      if s = source then
        some ((RateLimiter.bucketFor st source now).consume now cost).2
      else st.buckets s := by
  simp only [RateLimiter.checkCore]
  split
  · rfl
  · split <;> rfl

/-- `checkCore` preserves the all-buckets invariant. -/
theorem RateLimiter.checkCore_inv (clock now : ℚ) (st : RateLimiter)
    (source : String) (cost : ℕ) (h : RateLimiter.StateInv clock st)
    (hle : clock ≤ now) :
    RateLimiter.StateInv now (RateLimiter.checkCore st source now cost).2 := by
  intro s b hb
  rw [RateLimiter.checkCore_buckets] at hb
  by_cases hs : s = source
  · rw [if_pos hs] at hb
    cases Option.some.inj hb
    exact TokenBucket.consume_inv now now _ cost
      (RateLimiter.bucketFor_inv clock now st source h hle) (le_refl now)
  · rw [if_neg hs] at hb
    exact (h s b hb).mono hle

/-- `check_rate_limit` preserves the all-buckets invariant. -/
theorem RateLimiter.checkRateLimit_inv (clock now : ℚ) (st : RateLimiter)
    (source : String) (cost : ℕ) (h : RateLimiter.StateInv clock st)
    (hle : clock ≤ now) :
    RateLimiter.StateInv now (st.checkRateLimit source now cost).2 := by
  simp only [RateLimiter.checkRateLimit]
  cases hbu : st.blockedUntil source with
  | none => exact RateLimiter.checkCore_inv clock now st source cost h hle
  | some ub =>
      dsimp only
      by_cases hlt : now < ub
      · rw [if_pos hlt]
        exact fun s b hb => (h s b hb).mono hle
      · rw [if_neg hlt]
        exact RateLimiter.checkCore_inv clock now _ source cost h hle

/-- A chain stays a chain on any prefix. -/
theorem chain_take {α : Type} {r : α → α → Prop} :
    ∀ (l : List α) (a : α), List.Chain r a l → ∀ n, List.Chain r a (l.take n) := by
  intro l
  induction l with
  | nil => intro a h n; simp
  | cons b l ih =>
      intro a h n
      cases n with
      | zero => simp
      | succ n =>
          rw [List.take_succ_cons]
          cases h with
          | cons hr hc => exact List.Chain.cons hr (ih b hc n)

/-- Running a wall-clock-monotone sequence of `check_rate_limit` calls
from an invariant-satisfying state keeps every bucket within bounds. -/
theorem RateLimiter.runOps_inv (ops : List RateLimiter.Op) (st : RateLimiter)
    (t0 : ℚ) (hinv : RateLimiter.StateInv t0 st)
    (hmono : RateLimiter.TimesMono t0 ops) :
    ∀ s b, (RateLimiter.runOps st ops).buckets s = some b →
      0 ≤ b.tokens ∧ b.tokens ≤ b.capacity := by
  induction ops generalizing st t0 with
  | nil =>
      intro s b hb
      exact ⟨(hinv s b hb).1, (hinv s b hb).2.1⟩
  | cons op rest ih =>
      simp only [RateLimiter.TimesMono, List.map_cons, List.chain_cons] at hmono
      intro s b hb
      simp only [RateLimiter.runOps, List.foldl_cons] at hb
      exact ih _ op.now
        (RateLimiter.checkRateLimit_inv t0 op.now st op.source op.cost hinv
          hmono.1)
        hmono.2 s b hb

/-- Claim C4: starting from a fresh limiter, for every wall-clock-
monotone sequence of `check_rate_limit` calls with non-negative token
costs, every bucket existing at any observation point (after any prefix
of the sequence) has `0 ≤ tokens ≤ capacity`. -/
theorem tokenBucket_bounds (ops : List RateLimiter.Op) (t0 : ℚ) (n : ℕ)
    (hmono : RateLimiter.TimesMono t0 ops) (s : String) (b : TokenBucket)
    (hb : (RateLimiter.runOps RateLimiter.init (ops.take n)).buckets s =
      some b) :
    0 ≤ b.tokens ∧ b.tokens ≤ b.capacity := by
  have hmono' : RateLimiter.TimesMono t0 (ops.take n) := by
    simp only [RateLimiter.TimesMono, List.map_take] at hmono ⊢
    exact chain_take _ _ hmono n
  have hinit : RateLimiter.StateInv t0 RateLimiter.init := by
    intro s' b' hb'
    simp [RateLimiter.init] at hb'
  exact RateLimiter.runOps_inv (ops.take n) RateLimiter.init t0 hinit hmono'
    s b hb

/-- Two calls for source "a": consume 1 at instant 0, then consume 2 at
instant 1. -/
def opsC4 : List RateLimiter.Op := [⟨"a", 0, 1⟩, ⟨"a", 1, 2⟩]

/-- The bucket for "a" after running `opsC4` from a fresh limiter: the
refill 29 + 5/3 is capped at the capacity 30, then 2 tokens are
consumed. -/
def bC4 : TokenBucket :=
  { capacity := 30, refillRate := 5/3, tokens := 28, lastRefill := 1 }

/-- Concrete instance of Claim C4's theorem: after the two calls of
`opsC4` the bucket for "a" holds 28 tokens, within [0, 30]. -/
theorem tokenBucket_bounds_witness :
    0 ≤ bC4.tokens ∧ bC4.tokens ≤ bC4.capacity := by
  refine tokenBucket_bounds opsC4 0 2 ?_ "a" _ ?_
  · refine List.Chain.cons (by norm_num) (List.Chain.cons (by norm_num)
      List.Chain.nil)
  · norm_num [RateLimiter.runOps, RateLimiter.checkRateLimit,
      RateLimiter.checkCore, RateLimiter.bucketFor, RateLimiter.init,
      RateLimiter.tierOf, tierConfigs, TokenBucket.consume, opsC4, bC4]

/-- Concrete instance of Claim C10's theorem. -/
theorem firstSight_default_tier_basic_witness :
    RateLimiter.init.tierOf "s" = RateLimitTier.basic ∧
    ({ capacity := 30, refillRate := 5/3, tokens := 29, lastRefill := 0 } :
        TokenBucket).capacity = 30 ∧
    ({ capacity := 30, refillRate := 5/3, tokens := 29, lastRefill := 0 } :
        TokenBucket).refillRate = 100/60 := by
  have h := firstSight_default_tier_basic RateLimiter.init "s" 0 1 rfl rfl rfl
  refine ⟨h.1, h.2 _ ?_⟩
  norm_num [RateLimiter.checkRateLimit, RateLimiter.checkCore, RateLimiter.bucketFor,
    RateLimiter.init, RateLimiter.tierOf, tierConfigs, TokenBucket.consume]

end FraudMW
